import Mathlib

/-!
Verification of the meddaily content-to-video pipeline against its
natural-language specification.

The repository builds short vertical educational videos from structured
lesson records.  This file gives a shallow embedding, in Lean 4, of the
functions the specification claims are about:

* `src/video_generator.py` — `VideoGenerator` (moviepy pipeline);
* `src/video_generator_lite.py` — `LightweightVideoGenerator` (direct
  ffmpeg pipeline);
* `src/video_generator_premium.py` — `PremiumVideoGenerator`;
* `src/video_generator_enhanced.py` — `EnhancedVideoGenerator`;
* `src/ai_generator.py` — `MedicalContentGenerator`.

Conventions of the embedding:

* Durations reported by the external probe (ffprobe) and computed by the
  pipelines are modelled as rationals.
* External process outcomes (TTS synthesis, ffmpeg invocations, duration
  probes) are modelled as explicit `Except` / `Option` values passed in as
  parameters, since the Python code only branches on success or failure of
  the call.
* ffmpeg semantics used by the model: encoding a looped still image with
  the `-t d` flag yields a clip of duration `d`; stream-copy concatenation
  of clips yields a clip whose duration is the sum of the part durations.
* Where the claims count characters (filename sanitization, option
  truncation) strings are modelled as lists of characters, so that Python
  slicing and per-character filtering translate directly.
-/

/-! ## Data model: LessonContent (ai_generator.py) -/

/-- One multiple-choice question: question text plus labeled options
(the Python dict of options, as an association list of label and text). -/
structure MCQ where
  question : String
  options : List (String × String)
deriving DecidableEq

/-- The lesson record produced by `MedicalContentGenerator`:
case text, case-based MCQs, independent MCQs, answer key, mnemonic. -/
structure LessonContent where
  case_text : String
  case_based_mcqs : List MCQ
  independent_mcqs : List MCQ
  answers : List (String × String)
  mnemonic : String
deriving DecidableEq

/-- `all_mcqs = content[case_based_mcqs] + content[independent_mcqs]`,
the combined question list formed by the MCQ slide builders. -/
def allMcqs (c : LessonContent) : List MCQ :=
  c.case_based_mcqs ++ c.independent_mcqs

/-! ## ai_generator.py: `_parse_ai_response`

The parsed JSON object is modelled with one `Option` field per required
key, `none` meaning the key is missing from the parsed dict. -/

/-- A parsed AI response before validation: each required key of the dict
may be present or missing. -/
structure RawResponse where
  case_text : Option String
  case_based_mcqs : Option (List MCQ)
  independent_mcqs : Option (List MCQ)
  answers : Option (List (String × String))
  mnemonic : Option String
deriving DecidableEq

/-- `MedicalContentGenerator._parse_ai_response`, validation part: checks
each required key is present, then that there are exactly 3 case-based
MCQs and exactly 2 independent MCQs, and otherwise returns the parsed
data unchanged.  No other check is performed by the source. -/
def parseAiResponse (d : RawResponse) : Except String RawResponse :=
  if d.case_text.isNone then .error "Missing required key: case_text"
  else if d.case_based_mcqs.isNone then .error "Missing required key: case_based_mcqs"
  else if d.independent_mcqs.isNone then .error "Missing required key: independent_mcqs"
  else if d.answers.isNone then .error "Missing required key: answers"
  else if d.mnemonic.isNone then .error "Missing required key: mnemonic"
  else if (d.case_based_mcqs.getD []).length ≠ 3 then .error "Expected 3 case-based MCQs"
  else if (d.independent_mcqs.getD []).length ≠ 2 then .error "Expected 2 independent MCQs"
  else .ok d

/-! ## Narration synthesis (`_create_audio`)

`VideoGenerator._create_audio` (gTTS) and
`LightweightVideoGenerator._create_audio` (edge-tts) both call the
synthesizer inside try/except: on success they return the temp file path,
on any exception they print and return `None`.  The synthesis outcome is
passed in as an `Except` value. -/

/-- `VideoGenerator._create_audio`: result of the gTTS call; exceptions
are caught and `None` is returned instead of raising. -/
def vgCreateAudio (synth : Except String String) : Option String :=
  match synth with
  | .ok path => some path
  | .error _ => none

/-- `LightweightVideoGenerator._create_audio`: result of the edge-tts
call; exceptions are caught and `None` is returned instead of raising. -/
def liteCreateAudio (synth : Except String String) : Option String :=
  match synth with
  | .ok path => some path
  | .error _ => none

/-! ## VideoGenerator.create_video: clip durations and the 59 second cap -/

/-- `VideoGenerator.create_video`, per-slide clip duration: when the
narration audio file exists its moviepy duration is used, otherwise the
clip gets the default 3 seconds.  The argument is `some d` when audio
exists with duration `d`, `none` when `_create_audio` returned `None`. -/
def vgClipDuration : Option ℚ → ℚ
  | some d => d
  | none => 3

/-- Total duration of the moviepy concatenation of the slide clips. -/
def vgTotalDuration (audios : List (Option ℚ)) : ℚ :=
  (audios.map vgClipDuration).sum

/-- `VideoGenerator.create_video` duration cap: if the concatenated video
is longer than 59 seconds it is subclipped to the range 0..59, otherwise
it is left unchanged. -/
def vgFinalDuration (total : ℚ) : ℚ :=
  if total > 59 then 59 else total

/-- Duration of the final output of `VideoGenerator.create_video`, as a
function of the per-slide audio outcomes. -/
def vgOutputDuration (audios : List (Option ℚ)) : ℚ :=
  vgFinalDuration (vgTotalDuration audios)

/-! ## LightweightVideoGenerator._combine_slides_ffmpeg: per-slide segments -/

/-- The narration audio artifact handed to the lightweight segment
encoder: either no audio file exists, or one exists and the ffprobe
duration probe returned `some d` (or failed, `none`). -/
inductive AudioArtifact where
  | absent
  | present (probe : Option ℚ)
deriving DecidableEq

/-- The shape of one encoded segment: its resolved duration and whether
the encoded file carries an audio stream. -/
structure SegmentSpec where
  duration : ℚ
  hasAudioStream : Bool
deriving DecidableEq

/-- `LightweightVideoGenerator._combine_slides_ffmpeg`, per-slide branch:
with an audio file, ffmpeg is invoked with both the image and the audio
as inputs and `-t` set to the probed duration (3.0 when the probe fails);
without an audio file, ffmpeg is invoked with the image only and `-t 3`,
so the segment has no audio stream at all. -/
def liteSegmentSpec : AudioArtifact → SegmentSpec
  | .absent => { duration := 3, hasAudioStream := false }
  | .present p => { duration := p.getD 3, hasAudioStream := true }

/-- Duration of the stream-copy concatenation produced by
`_combine_slides_ffmpeg`: the sum of the segment durations. -/
def liteRunDuration (arts : List AudioArtifact) : ℚ :=
  (arts.map (fun a => (liteSegmentSpec a).duration)).sum

/-! ## PremiumVideoGenerator._gen_slide and _assemble_video -/

/-- The audio track attached to a premium slide: a generated silent
track of a given length (ffmpeg anullsrc with `-t`), or a synthesized
narration track. -/
inductive SlideAudio where
  | silent (dur : ℚ)
  | voiced
deriving DecidableEq

/-- One slide as returned by `PremiumVideoGenerator._gen_slide`:
resolved duration and audio track. -/
structure PremiumSlide where
  duration : ℚ
  audio : SlideAudio
deriving DecidableEq

/-- The 1.0 second trailing buffer `_gen_slide` adds to the probed
narration duration. -/
def premiumTrailingBuffer : ℚ := 1

/-- The lightweight generator adds no trailing buffer to the probed
duration: its buffer is zero. -/
def liteTrailingBuffer : ℚ := 0

/-- `PremiumVideoGenerator._gen_slide`, duration and audio resolution:
with empty narration text a silent track of exactly the default duration
is generated and the duration stays the default; with narration text the
audio is synthesized and probed, and on probe success the duration
becomes probed plus the 1.0 second buffer, on probe or synthesis failure
it stays the default. -/
def premiumGenSlide (dur : ℚ) (audioText : String) (probe : Option ℚ) : PremiumSlide :=
  if audioText = "" then { duration := dur, audio := .silent dur }
  else
    match probe with
    | some d => { duration := d + premiumTrailingBuffer, audio := .voiced }
    | none => { duration := dur, audio := .voiced }

/-- Duration of the output of `PremiumVideoGenerator._assemble_video`:
each part is encoded with `-t` set to the slide duration and the parts
are stream-copy concatenated, so the final duration is the plain sum —
no duration cap is applied anywhere in the premium pipeline. -/
def premiumAssembledDuration (slides : List PremiumSlide) : ℚ :=
  (slides.map PremiumSlide.duration).sum

/-! ## External encoder invocations and their failure handling

`LightweightVideoGenerator._combine_slides_ffmpeg` runs every ffmpeg
command with `check=True`, so a nonzero exit raises
`CalledProcessError`, which nothing in `create_video` catches.
`PremiumVideoGenerator._assemble_video` runs every ffmpeg command with
`capture_output=True` and no check, so exit codes are discarded.

The model records the trace of commands actually invoked together with
the outcome, the per-command results being supplied as parameters. -/

/-- An external ffmpeg invocation made by an assembler: encoding the
segment of one slide, or the final stream-copy concatenation. -/
inductive EncCmd (α : Type) where
  | encodeSegment (s : α)
  | concatSegments
deriving DecidableEq

/-- The per-segment encoding loop of `_combine_slides_ffmpeg`: segments
are encoded in order and, because of `check=True`, the first failing
invocation raises immediately — later segments are never attempted and
the exception carries the failure out unchanged. -/
def liteEncodeSegs {α : Type} (enc : α → Except String Unit) :
    List α → List (EncCmd α) × Except String Unit
  | [] => ([], .ok ())
  | s :: rest =>
    match enc s with
    | .error e => ([.encodeSegment s], .error e)
    | .ok _ =>
      match liteEncodeSegs enc rest with
      | (tr, r) => (.encodeSegment s :: tr, r)

/-- `LightweightVideoGenerator._combine_slides_ffmpeg`: encode every
segment, then concatenate, every command run with `check=True`; the
result is the output path on success and the first error otherwise,
together with the trace of commands invoked. -/
def liteCombineSlides {α : Type} (enc : α → Except String Unit)
    (conc : Except String Unit) (segs : List α) (outputPath : String) :
    List (EncCmd α) × Except String String :=
  match liteEncodeSegs enc segs with
  | (tr, .error e) => (tr, .error e)
  | (tr, .ok _) =>
    match conc with
    | .error e => (tr ++ [.concatSegments], .error e)
    | .ok _ => (tr ++ [.concatSegments], .ok outputPath)

/-- `PremiumVideoGenerator._assemble_video`: every segment encoding and
the concatenation are invoked exactly once with their output captured
and their exit status discarded, and the output path is returned
unconditionally — there is no failure channel. -/
def premiumAssembleVideo {α : Type} (enc : α → Except String Unit)
    (conc : Except String Unit) (slides : List α) (outputPath : String) :
    List (EncCmd α) × String :=
  let results := slides.map enc
  let concatResult := conc
  let _ := results
  let _ := concatResult
  (slides.map EncCmd.encodeSegment ++ [.concatSegments], outputPath)

/-! ## Text wrapping (PremiumVideoGenerator._wrap_text)

The premium renderer wraps by measured pixel width: the rendered width
of a candidate line under the resolved font is modelled as a function
from character lists to rationals, standing for `font.getlength`.
Texts, words and lines are character lists. -/

/-- Helper for `pyWords`: accumulate the current word (reversed) while
scanning the text. -/
def splitWsAux : List Char → List Char → List (List Char)
  | [], acc => if acc = [] then [] else [acc.reverse]
  | c :: cs, acc =>
    if c.isWhitespace then
      if acc = [] then splitWsAux cs [] else acc.reverse :: splitWsAux cs []
    else splitWsAux cs (c :: acc)

/-- Python `text.split()`: split on whitespace runs, no empty pieces. -/
def pyWords (cs : List Char) : List (List Char) :=
  splitWsAux cs []

/-- Python `" ".join(words)`. -/
def joinWords : List (List Char) → List Char
  | [] => []
  | [w] => w
  | w :: ws => w ++ ' ' :: joinWords ws

/-- The word loop of `PremiumVideoGenerator._wrap_text`: try to extend
the current line by the next word; if the extended line measures within
the maximum keep extending, otherwise emit the current line and start a
new one from the word alone. -/
def wrapLoop (width : List Char → ℚ) (maxW : ℚ) :
    List (List Char) → List (List Char) → List (List Char)
  | current, [] => [joinWords current]
  | current, w :: ws =>
    if width (joinWords (current ++ [w])) ≤ maxW then
      wrapLoop width maxW (current ++ [w]) ws
    else
      joinWords current :: wrapLoop width maxW [w] ws

/-- `PremiumVideoGenerator._wrap_text text font max_width`, with the
font represented by its width measure. -/
def premiumWrapText (width : List Char → ℚ) (text : List Char) (maxW : ℚ) :
    List (List Char) :=
  wrapLoop width maxW [] (pyWords text)

/-- A concrete font-width model: every character renders `px` pixels
wide, as in a monospaced font. -/
def monospaceWidth (px : ℚ) (cs : List Char) : ℚ := px * cs.length

/-! ## Output filenames (create_video of the standard and premium generators) -/

/-- Python `str.strip()` on a character list: drop leading and trailing
whitespace. -/
def pyStrip (cs : List Char) : List Char :=
  ((cs.dropWhile Char.isWhitespace).reverse.dropWhile Char.isWhitespace).reverse

/-- The character predicate of the standard sanitizer:
`c.isalnum() or c in (space, hyphen, underscore)`. -/
def safeChar (c : Char) : Bool :=
  c.isAlphanum || c = ' ' || c = '-' || c = '_'

/-- `VideoGenerator.create_video` filename sanitization of one
component: keep only alphanumerics, space, hyphen and underscore, then
strip surrounding whitespace. -/
def sanitizeComponent (cs : List Char) : List Char :=
  pyStrip (cs.filter safeChar)

/-- The default output filename of `VideoGenerator.create_video`:
sanitized topic, underscore, sanitized subtopic, `.mp4` suffix. -/
def vgOutputFilename (topic subtopic : List Char) : List Char :=
  sanitizeComponent topic ++ '_' :: sanitizeComponent subtopic ++ ".mp4".toList

/-- The default output filename of `PremiumVideoGenerator.create_video`:
topic, underscore, subtopic with spaces replaced by underscores,
truncated to 50 characters, then the `.mp4` suffix — no character is
stripped. -/
def premiumFilename (topic subtopic : List Char) : List Char :=
  ((topic ++ '_' :: subtopic).map (fun c => if c = ' ' then '_' else c)).take 50
    ++ ".mp4".toList

/-! ## Option truncation on the questions slide -/

/-- `VideoGenerator._create_mcq_slide` option truncation: options longer
than 40 characters are replaced by their first 37 characters followed by
an ellipsis marker. -/
def vgTruncateOption (opt : List Char) : List Char :=
  if opt.length > 40 then opt.take 37 ++ "...".toList else opt

/-- `EnhancedVideoGenerator._create_mcq_slide` option truncation: budget
35, keeping the first 32 characters plus the ellipsis marker. -/
def enhancedTruncateOption (opt : List Char) : List Char :=
  if opt.length > 35 then opt.take 32 ++ "...".toList else opt

/-! ## Which questions the questions slide shows

In each generator the MCQ slide iterates over a fixed-size prefix of the
question list; the narration parts are appended on every iteration of
that loop, so the narrated questions are exactly the iterated ones (the
vertical-position cutoff can only omit drawn lines within the prefix,
never add questions beyond it). -/

/-- `VideoGenerator._create_mcq_slide` iterates `all_mcqs[:3]`. -/
def vgMcqSlideQuestions (c : LessonContent) : List MCQ :=
  (allMcqs c).take 3

/-- `EnhancedVideoGenerator._create_mcq_slide` iterates `all_mcqs[:2]`. -/
def enhancedMcqSlideQuestions (c : LessonContent) : List MCQ :=
  (allMcqs c).take 2

/-- `PremiumVideoGenerator.create_video` builds its questions slide from
`content[case_based_mcqs][0]` alone. -/
def premiumMcqSlideQuestion (c : LessonContent) : Option MCQ :=
  c.case_based_mcqs.head?

/-- The narration of the standard MCQ slide: the fixed intro sentence
followed by one sentence per iterated question. -/
def vgMcqNarrationParts (c : LessonContent) : List String :=
  "Here are the questions." ::
    (vgMcqSlideQuestions c).map (fun m => m.question)

/-! ## Claim theorems -/

/-- C1, counterexample: a premium run whose segments sum to 60 seconds
produces a final output of 60 seconds, not the 59 second cap — the
premium assembler applies no duration cap at all. -/
theorem c1_premium_uncapped_counterexample :
    59 < premiumAssembledDuration [⟨20, .voiced⟩, ⟨20, .voiced⟩, ⟨20, .voiced⟩] ∧
    premiumAssembledDuration [⟨20, .voiced⟩, ⟨20, .voiced⟩, ⟨20, .voiced⟩] ≠ 59 := by
  constructor <;> norm_num [premiumAssembledDuration]

/-- C1, amended: in the standard moviepy pipeline the final duration
equals the summed clip duration when that sum is at most 59 seconds and
is exactly 59 when the sum exceeds it; the premium assembler performs no
trimming, its final duration always equals the summed segment
duration. -/
theorem c1_duration_cap_amended (audios : List (Option ℚ)) (slides : List PremiumSlide) :
    (vgTotalDuration audios ≤ 59 → vgOutputDuration audios = vgTotalDuration audios) ∧
    (59 < vgTotalDuration audios → vgOutputDuration audios = 59) ∧
    premiumAssembledDuration slides = (slides.map PremiumSlide.duration).sum := by
  refine ⟨fun h => ?_, fun h => ?_, rfl⟩
  · unfold vgOutputDuration vgFinalDuration
    rw [if_neg (not_lt.mpr h)]
  · unfold vgOutputDuration vgFinalDuration
    rw [if_pos h]

/-- C1, witness: a two-slide standard run totalling 5 seconds is left at
5 seconds. -/
theorem c1_duration_cap_witness :
    vgOutputDuration [some 2, none] = vgTotalDuration [some 2, none] :=
  (c1_duration_cap_amended [some 2, none] []).1
    (by norm_num [vgTotalDuration, vgClipDuration])

/-- C2, counterexample: in the lightweight generator a slide whose
narration audio is absent is encoded with no audio stream at all (the
ffmpeg command takes only the image input), contradicting the claim that
every segment carries a silent audio stream. -/
theorem c2_lite_no_audio_stream_counterexample :
    (liteSegmentSpec AudioArtifact.absent).hasAudioStream = false ∧
    (liteSegmentSpec AudioArtifact.absent).duration = 3 :=
  ⟨rfl, rfl⟩

/-- C2, amended: a slide without narration audio is encoded at exactly
the configured default duration in both generators; the premium
generator attaches a generated silent audio track of exactly that
default duration, but the lightweight generator encodes the segment
without any audio stream. -/
theorem c2_silent_default_amended (dur : ℚ) (p : Option ℚ) :
    (liteSegmentSpec AudioArtifact.absent).duration = 3 ∧
    (liteSegmentSpec AudioArtifact.absent).hasAudioStream = false ∧
    (premiumGenSlide dur "" p).duration = dur ∧
    (premiumGenSlide dur "" p).audio = SlideAudio.silent dur := by
  refine ⟨rfl, rfl, ?_, ?_⟩ <;> simp [premiumGenSlide]

/-- C2, witness: the amended statement at default duration 5. -/
theorem c2_silent_default_witness :
    (liteSegmentSpec AudioArtifact.absent).duration = 3 ∧
    (liteSegmentSpec AudioArtifact.absent).hasAudioStream = false ∧
    (premiumGenSlide 5 "" none).duration = 5 ∧
    (premiumGenSlide 5 "" none).audio = SlideAudio.silent 5 :=
  c2_silent_default_amended 5 none

/-- C3: a narration-synthesis failure is caught and surfaced as `none`
in both `_create_audio` implementations, and a standard run in which
synthesis fails for every one of its four slides still produces an
output whose duration is the sum of the per-slide 3 second defaults (the
lightweight run likewise). -/
theorem c3_synthesis_failure_degrades (e : String) :
    vgCreateAudio (.error e) = none ∧
    liteCreateAudio (.error e) = none ∧
    vgOutputDuration (List.replicate 4 none) = 3 + 3 + 3 + 3 ∧
    liteRunDuration (List.replicate 4 AudioArtifact.absent) = 3 + 3 + 3 + 3 := by
  refine ⟨rfl, rfl, ?_, ?_⟩
  · norm_num [vgOutputDuration, vgTotalDuration, vgFinalDuration, vgClipDuration,
      List.replicate]
  · norm_num [liteRunDuration, liteSegmentSpec, List.replicate]

/-- C3, witness: the statement at a concrete synthesis error. -/
theorem c3_synthesis_failure_witness :
    vgCreateAudio (.error "network unreachable") = none ∧
    liteCreateAudio (.error "network unreachable") = none ∧
    vgOutputDuration (List.replicate 4 none) = 3 + 3 + 3 + 3 ∧
    liteRunDuration (List.replicate 4 AudioArtifact.absent) = 3 + 3 + 3 + 3 :=
  c3_synthesis_failure_degrades "network unreachable"

/-- C5: when the duration probe succeeds the premium slide resolves to
probed duration plus the 1.0 second trailing buffer and the lightweight
segment to probed duration plus its (zero) buffer; when the probe fails
both fall back to the default duration; in each case the resolved
duration is at least the probed duration and below probed duration plus
buffer plus any positive epsilon. -/
theorem c5_resolved_duration (p dur : ℚ) (t : String) (ht : t ≠ "") :
    (premiumGenSlide dur t (some p)).duration = p + premiumTrailingBuffer ∧
    (premiumGenSlide dur t none).duration = dur ∧
    (liteSegmentSpec (.present (some p))).duration = p + liteTrailingBuffer ∧
    (liteSegmentSpec (.present none)).duration = 3 ∧
    p ≤ (premiumGenSlide dur t (some p)).duration ∧
    p ≤ (liteSegmentSpec (.present (some p))).duration ∧
    (∀ ε : ℚ, 0 < ε →
      (premiumGenSlide dur t (some p)).duration < p + premiumTrailingBuffer + ε) ∧
    (∀ ε : ℚ, 0 < ε →
      (liteSegmentSpec (.present (some p))).duration < p + liteTrailingBuffer + ε) := by
  have h1 : (premiumGenSlide dur t (some p)).duration = p + premiumTrailingBuffer := by
    simp [premiumGenSlide, ht]
  have h2 : (liteSegmentSpec (.present (some p))).duration = p + liteTrailingBuffer := by
    simp [liteSegmentSpec, liteTrailingBuffer]
  refine ⟨h1, by simp [premiumGenSlide, ht], h2, rfl, ?_, ?_, ?_, ?_⟩
  · rw [h1]; unfold premiumTrailingBuffer; linarith
  · rw [h2]; unfold liteTrailingBuffer; linarith
  · intro ε hε; rw [h1]; linarith
  · intro ε hε; rw [h2]; linarith

/-- C5, witness: a probed duration of 2 seconds with nonempty narration
text resolves to 3 seconds in the premium generator. -/
theorem c5_resolved_duration_witness :
    (premiumGenSlide 10 "hello" (some 2)).duration = 2 + premiumTrailingBuffer :=
  (c5_resolved_duration 2 10 "hello" (by decide)).1

/-- Helper for C4: in the lightweight per-segment loop, when every
segment before `s` encodes successfully and `s` fails, the loop stops at
`s` with that error: each earlier segment and `s` itself were invoked
exactly once and the segments after `s` were never attempted. -/
theorem liteEncodeSegs_error {α : Type} (enc : α → Except String Unit)
    (pre : List α) (s : α) (post : List α) (e : String)
    (hpre : ∀ t ∈ pre, enc t = .ok ()) (hs : enc s = .error e) :
    liteEncodeSegs enc (pre ++ s :: post) =
      (pre.map EncCmd.encodeSegment ++ [EncCmd.encodeSegment s], .error e) := by
  induction pre with
  | nil => simp [liteEncodeSegs, hs]
  | cons a pre ih =>
    have ha : enc a = .ok () := hpre a (List.mem_cons_self a pre)
    have ih2 := ih (fun t ht => hpre t (List.mem_cons_of_mem a ht))
    simp [liteEncodeSegs, ha, ih2]

/-- C4, counterexample: in the premium assembler every encoder
invocation can fail and the run still returns the output path as valid
output — encoder failure does not propagate and the run is not
aborted. -/
theorem c4_premium_swallow_counterexample :
    (premiumAssembleVideo (fun _ : Nat => Except.error "encoder failed")
        (Except.error "concat failed") [0, 1] "videos/out.mp4").2 = "videos/out.mp4" :=
  rfl

/-- C4, amended: in the lightweight generator an encoder invocation
failure is fatal: the first failing segment encoding aborts the run with
that error propagated unmodified, the failing command having been
invoked exactly once, later segments and the concatenation never
attempted, and no output path returned.  The premium assembler instead
discards every exit status and returns the output path
unconditionally. -/
theorem c4_encoder_failure_amended {α : Type} (enc : α → Except String Unit)
    (conc : Except String Unit) (pre : List α) (s : α) (post : List α)
    (e : String) (out : String)
    (hpre : ∀ t ∈ pre, enc t = .ok ()) (hs : enc s = .error e) :
    liteCombineSlides enc conc (pre ++ s :: post) out =
      (pre.map EncCmd.encodeSegment ++ [EncCmd.encodeSegment s], .error e) ∧
    (premiumAssembleVideo enc conc (pre ++ s :: post) out).2 = out := by
  refine ⟨?_, rfl⟩
  unfold liteCombineSlides
  rw [liteEncodeSegs_error enc pre s post e hpre hs]

/-- C4, witness: the second of three segments fails to encode; the
lightweight run stops there with the error. -/
theorem c4_encoder_failure_witness :
    liteCombineSlides (fun i => if i = 1 then Except.error "boom" else Except.ok ())
        (Except.ok ()) ([0] ++ 1 :: [2]) "videos/v.mp4" =
      (List.map EncCmd.encodeSegment [0] ++ [EncCmd.encodeSegment 1],
        Except.error "boom") ∧
    (premiumAssembleVideo (fun i => if i = 1 then Except.error "boom" else Except.ok ())
        (Except.ok ()) ([0] ++ 1 :: [2]) "videos/v.mp4").2 = "videos/v.mp4" :=
  c4_encoder_failure_amended _ _ [0] 1 [2] "boom" "videos/v.mp4"
    (by intro t ht; rw [List.mem_singleton] at ht; subst ht; rfl) rfl

/-- The five-key, wrong-shape parsed response used to exhibit the
validation gap: three case-based and two independent MCQs, but every
question has zero options and the answer key is empty. -/
def badParsedResponse : RawResponse :=
  { case_text := some "A 62 year old man presents with crushing chest pain."
  , case_based_mcqs := some [⟨"Q1", []⟩, ⟨"Q2", []⟩, ⟨"Q3", []⟩]
  , independent_mcqs := some [⟨"Q4", []⟩, ⟨"Q5", []⟩]
  , answers := some []
  , mnemonic := some "MONA" }

/-- The labeled options of the well-formed sample questions. -/
def sampleOptions : List (String × String) :=
  [("A", "Aspirin"), ("B", "Heparin"), ("C", "Alteplase"), ("D", "Metoprolol")]

/-- A well-formed parsed response: all keys present, 3 case-based and 2
independent MCQs with four options each, five answer-key entries. -/
def goodParsedResponse : RawResponse :=
  { case_text := some "A 62 year old man presents with crushing chest pain."
  , case_based_mcqs :=
      some [⟨"Q1", sampleOptions⟩, ⟨"Q2", sampleOptions⟩, ⟨"Q3", sampleOptions⟩]
  , independent_mcqs := some [⟨"Q4", sampleOptions⟩, ⟨"Q5", sampleOptions⟩]
  , answers := some [("1", "A"), ("2", "B"), ("3", "C"), ("4", "D"), ("5", "A")]
  , mnemonic := some "MONA" }

/-- C6, counterexample: a parsed response in which every question has
zero options and the answer key is empty passes `_parse_ai_response`
unrejected — the per-question option count and the answer key are never
validated. -/
theorem c6_validation_gap_counterexample :
    parseAiResponse badParsedResponse = Except.ok badParsedResponse ∧
    (badParsedResponse.case_based_mcqs.getD []).map (fun m => m.options.length) =
      [0, 0, 0] ∧
    (badParsedResponse.answers.getD []).length = 0 :=
  ⟨rfl, rfl, rfl⟩

/-- C6, amended: every record `_parse_ai_response` returns is the parsed
data unchanged, with all five required keys present, exactly 3
case-based MCQs and exactly 2 independent MCQs — these violations are
rejected by raising — but the per-question option count and the answer
key entries are not validated. -/
theorem c6_partial_validation_amended (d r : RawResponse)
    (h : parseAiResponse d = Except.ok r) :
    r = d ∧ d.case_text.isSome ∧ d.case_based_mcqs.isSome ∧
    d.independent_mcqs.isSome ∧ d.answers.isSome ∧ d.mnemonic.isSome ∧
    (d.case_based_mcqs.getD []).length = 3 ∧
    (d.independent_mcqs.getD []).length = 2 := by
  unfold parseAiResponse at h
  repeat' split at h
  all_goals simp at h
  subst h
  simp_all [← Option.ne_none_iff_isSome]

/-- C6, witness: the amended statement at the well-formed sample
response. -/
theorem c6_partial_validation_witness :
    goodParsedResponse = goodParsedResponse ∧
    goodParsedResponse.case_text.isSome ∧
    goodParsedResponse.case_based_mcqs.isSome ∧
    goodParsedResponse.independent_mcqs.isSome ∧
    goodParsedResponse.answers.isSome ∧
    goodParsedResponse.mnemonic.isSome ∧
    (goodParsedResponse.case_based_mcqs.getD []).length = 3 ∧
    (goodParsedResponse.independent_mcqs.getD []).length = 2 :=
  c6_partial_validation_amended goodParsedResponse goodParsedResponse rfl

/-- Helper for C7: every line emitted by the wrap loop measures within
the maximum, provided the current line does and every remaining word
does on its own. -/
theorem wrapLoop_width_le (width : List Char → ℚ) (maxW : ℚ) :
    ∀ (ws current : List (List Char)),
      width (joinWords current) ≤ maxW →
      (∀ w ∈ ws, width w ≤ maxW) →
      ∀ line ∈ wrapLoop width maxW current ws, width line ≤ maxW := by
  intro ws
  induction ws with
  | nil =>
    intro current hc _ line hl
    simp only [wrapLoop] at hl
    rw [List.mem_singleton] at hl
    subst hl
    exact hc
  | cons w ws ih =>
    intro current hc hw line hl
    simp only [wrapLoop] at hl
    by_cases hcase : width (joinWords (current ++ [w])) ≤ maxW
    · rw [if_pos hcase] at hl
      exact ih (current ++ [w]) hcase
        (fun x hx => hw x (List.mem_cons_of_mem _ hx)) line hl
    · rw [if_neg hcase] at hl
      rcases List.mem_cons.mp hl with h | h
      · subst h; exact hc
      · refine ih [w] ?_ (fun x hx => hw x (List.mem_cons_of_mem _ hx)) line h
        have hjw : joinWords [w] = w := rfl
        rw [hjw]
        exact hw w (List.mem_cons_self w ws)

/-- C7, counterexample: under a monospaced width model of 10 pixels per
character with a 50 pixel maximum, wrapping the single word text
composed of the word of 11 characters produces a line of 110 pixels:
a word wider than the maximum yields a produced line whose measured
pixel width exceeds the supplied maximum (with a spurious empty line
before it). -/
theorem c7_overlong_word_counterexample :
    premiumWrapText (monospaceWidth 10) "overflowing".toList 50 =
      [[], "overflowing".toList] ∧
    "overflowing".toList ∈ premiumWrapText (monospaceWidth 10) "overflowing".toList 50 ∧
    50 < monospaceWidth 10 "overflowing".toList := by
  refine ⟨?_, ?_, ?_⟩
  · norm_num [premiumWrapText, wrapLoop, pyWords, splitWsAux, joinWords, monospaceWidth]
  · norm_num [premiumWrapText, wrapLoop, pyWords, splitWsAux, joinWords, monospaceWidth]
  · norm_num [monospaceWidth]

/-- C7, amended: the premium renderer wraps by measured pixel width,
greedily packing words, and every produced line measures within the
supplied maximum width provided the empty line and every single word of
the text measure within it (a single over-wide word instead yields an
over-wide line; the standard and lightweight renderers wrap by character
count via textwrap, not by pixel width). -/
theorem c7_wrap_width_amended (width : List Char → ℚ) (maxW : ℚ) (text : List Char)
    (h0 : width [] ≤ maxW)
    (hw : ∀ w ∈ pyWords text, width w ≤ maxW) :
    ∀ line ∈ premiumWrapText width text maxW, width line ≤ maxW := by
  intro line hl
  exact wrapLoop_width_le width maxW (pyWords text) [] h0 hw line hl

/-- C7, witness: wrapping a two-word text whose words fit produces only
fitting lines; the line containing both words fits. -/
theorem c7_wrap_width_witness :
    monospaceWidth 10 "ab cd".toList ≤ 50 := by
  have hmem : "ab cd".toList ∈ premiumWrapText (monospaceWidth 10) "ab cd".toList 50 := by
    norm_num [premiumWrapText, wrapLoop, pyWords, splitWsAux, joinWords, monospaceWidth]
  exact c7_wrap_width_amended (monospaceWidth 10) 50 "ab cd".toList
    (by norm_num [monospaceWidth])
    (by
      intro w hw
      have hws : pyWords "ab cd".toList = ["ab".toList, "cd".toList] := by decide
      rw [hws] at hw
      rcases List.mem_cons.mp hw with h | h
      · subst h; norm_num [monospaceWidth]
      · rw [List.mem_singleton] at h; subst h; norm_num [monospaceWidth])
    "ab cd".toList hmem

/-- Helper for C8: membership survives Python strip. -/
theorem mem_of_mem_pyStrip {c : Char} {cs : List Char} (h : c ∈ pyStrip cs) :
    c ∈ cs := by
  unfold pyStrip at h
  rw [List.mem_reverse] at h
  have h1 := (List.dropWhile_sublist _).subset h
  rw [List.mem_reverse] at h1
  exact (List.dropWhile_sublist _).subset h1

/-- Helper for C8: every character of a sanitized component is
alphanumeric, space, hyphen or underscore. -/
theorem safeChar_of_mem_sanitizeComponent {c : Char} {cs : List Char}
    (h : c ∈ sanitizeComponent cs) : safeChar c = true :=
  (List.mem_filter.mp (mem_of_mem_pyStrip h)).2

/-- C8, counterexample: the premium generator derives its filename
without sanitization: topic `a/b` and subtopic `c` yield the filename
`a/b_c.mp4`, which keeps the slash — a non-alphanumeric character other
than space, hyphen and underscore that the claim says is stripped. -/
theorem c8_premium_unsanitized_counterexample :
    premiumFilename "a/b".toList "c".toList = "a/b_c.mp4".toList ∧
    '/' ∈ premiumFilename "a/b".toList "c".toList ∧
    safeChar '/' = false := by
  refine ⟨by decide, by decide, by decide⟩

/-- C8, amended: the standard generator does derive its default output
filename from sanitized topic and subtopic strings — every character of
the name is alphanumeric, space, hyphen or underscore, apart from the
`.mp4` suffix; the premium generator only replaces spaces by
underscores and truncates, stripping nothing. -/
theorem c8_sanitized_filename_amended (topic subtopic : List Char) (c : Char)
    (hc : c ∈ vgOutputFilename topic subtopic) :
    safeChar c = true ∨ c ∈ ".mp4".toList := by
  unfold vgOutputFilename at hc
  rcases List.mem_append.mp hc with h | h
  · rcases List.mem_append.mp h with h | h
    · exact Or.inl (safeChar_of_mem_sanitizeComponent h)
    · rcases List.mem_cons.mp h with h | h
      · subst h; exact Or.inl (by decide)
      · exact Or.inl (safeChar_of_mem_sanitizeComponent h)
  · exact Or.inr h

/-- C8, witness: the letter H of the sanitized topic is a safe
character. -/
theorem c8_sanitized_filename_witness :
    safeChar 'H' = true ∨ 'H' ∈ ".mp4".toList :=
  c8_sanitized_filename_amended " He?art! ".toList "AHF".toList 'H' (by decide)

/-- C9: an option longer than the 40 character budget of the standard
renderer is drawn as its first 37 characters followed by the ellipsis
marker, the drawn option never exceeds the budget, and options at or
under the budget are drawn unchanged; the enhanced renderer does the
same with its 35 character budget, keeping 32 characters. -/
theorem c9_option_truncation (opt : List Char) :
    (40 < opt.length → vgTruncateOption opt = opt.take 37 ++ "...".toList) ∧
    (vgTruncateOption opt).length ≤ 40 ∧
    (opt.length ≤ 40 → vgTruncateOption opt = opt) ∧
    (35 < opt.length → enhancedTruncateOption opt = opt.take 32 ++ "...".toList) ∧
    (enhancedTruncateOption opt).length ≤ 35 ∧
    (opt.length ≤ 35 → enhancedTruncateOption opt = opt) := by
  unfold vgTruncateOption enhancedTruncateOption
  refine ⟨fun h => if_pos h, ?_, fun h => if_neg (by omega),
    fun h => if_pos h, ?_, fun h => if_neg (by omega)⟩
  · split
    · rename_i h
      have h3 : ("...".toList).length = 3 := by decide
      simp only [List.length_append, List.length_take, h3]
      omega
    · rename_i h
      omega
  · split
    · rename_i h
      have h3 : ("...".toList).length = 3 := by decide
      simp only [List.length_append, List.length_take, h3]
      omega
    · rename_i h
      omega

/-- C9, witness: a 41 character option is truncated to its first 37
characters plus the ellipsis marker. -/
theorem c9_option_truncation_witness :
    vgTruncateOption (List.replicate 41 'x') =
      (List.replicate 41 'x').take 37 ++ "...".toList :=
  (c9_option_truncation (List.replicate 41 'x')).1 (by decide)

/-- A concrete five-question lesson with pairwise distinct questions. -/
def sampleLesson : LessonContent :=
  { case_text := "A 62 year old man presents with crushing chest pain."
  , case_based_mcqs :=
      [⟨"Q1", sampleOptions⟩, ⟨"Q2", sampleOptions⟩, ⟨"Q3", sampleOptions⟩]
  , independent_mcqs := [⟨"Q4", sampleOptions⟩, ⟨"Q5", sampleOptions⟩]
  , answers := [("1", "A"), ("2", "B"), ("3", "C"), ("4", "D"), ("5", "A")]
  , mnemonic := "MONA greets all patients" }

/-- C10: on a lesson with the contractual 3 case-based and 2 independent
questions (pairwise distinct), the standard MCQ slide iterates exactly
the first 3 of the combined question list, the enhanced one the first 2,
and the premium one only the first case-based question; its narration
covers exactly the iterated questions, and none of the remaining
questions appears on the slide or in its narration. -/
theorem c10_fixed_question_front (c : LessonContent)
    (h3 : c.case_based_mcqs.length = 3) (h2 : c.independent_mcqs.length = 2)
    (hd : (allMcqs c).Nodup) :
    vgMcqSlideQuestions c = c.case_based_mcqs ∧
    (vgMcqSlideQuestions c).length = 3 ∧
    (enhancedMcqSlideQuestions c).length = 2 ∧
    premiumMcqSlideQuestion c = (allMcqs c).head? ∧
    vgMcqNarrationParts c =
      "Here are the questions." :: c.case_based_mcqs.map (fun m => m.question) ∧
    (∀ m ∈ (allMcqs c).drop 3, m ∉ vgMcqSlideQuestions c) ∧
    (∀ m ∈ (allMcqs c).drop 2, m ∉ enhancedMcqSlideQuestions c) ∧
    (∀ m ∈ (allMcqs c).drop 1, premiumMcqSlideQuestion c ≠ some m) := by
  have htake : vgMcqSlideQuestions c = c.case_based_mcqs := by
    unfold vgMcqSlideQuestions allMcqs
    rw [show (3 : ℕ) = c.case_based_mcqs.length from h3.symm, List.take_left]
  have hlen : (allMcqs c).length = 5 := by
    unfold allMcqs
    rw [List.length_append, h3, h2]
  have hhead : premiumMcqSlideQuestion c = (allMcqs c).head? := by
    unfold premiumMcqSlideQuestion allMcqs
    cases hcb : c.case_based_mcqs with
    | nil => rw [hcb] at h3; simp at h3
    | cons a rest => simp
  refine ⟨htake, ?_, ?_, hhead, ?_, ?_, ?_, ?_⟩
  · rw [htake, h3]
  · unfold enhancedMcqSlideQuestions
    rw [List.length_take, hlen]
    decide
  · unfold vgMcqNarrationParts
    rw [htake]
  · intro m hm hmem
    rw [htake, ← show vgMcqSlideQuestions c = c.case_based_mcqs from htake] at hmem
    exact List.disjoint_take_drop hd (le_refl 3) hmem hm
  · intro m hm hmem
    exact List.disjoint_take_drop hd (le_refl 2) hmem hm
  · intro m hm hcontra
    have hmem : m ∈ (allMcqs c).take 1 := by
      rw [hhead] at hcontra
      cases hall : allMcqs c with
      | nil => rw [hall] at hcontra; simp at hcontra
      | cons a rest =>
        rw [hall] at hcontra
        simp only [List.head?] at hcontra
        have : a = m := by injection hcontra
        subst this
        simp
    exact List.disjoint_take_drop hd (le_refl 1) hmem hm

/-- C10, witness: the fixed-size front on the concrete sample lesson. -/
theorem c10_fixed_question_front_witness :
    (vgMcqSlideQuestions sampleLesson).length = 3 :=
  (c10_fixed_question_front sampleLesson (by decide) (by decide) (by decide)).2.1
